import Mathlib

/-!
Verification of the NewsPassID audience pipeline.

This file gives a shallow embedding of the identity-resolution and
segment-assignment pipeline of the repository: the two ingestion handler
variants of `src/lambda/src/index.ts` (a TypeScript handler and a JavaScript
handler separated in the same file), the id-format helpers of
`src/lambda/src/utils.ts`, the client `setID` lifecycle of the NewsPassID
implementation, and the async-loader queue shim.  Machine numbers are
modelled as `Int`, JavaScript truthiness is made explicit, storage effects
are modelled by an environment describing the outcome of each S3 call and a
trace of the storage operations the handler performed.
-/

set_option maxRecDepth 10000

/-! ## JavaScript-style string primitives -/

/-- JavaScript `String.prototype.split` with a one-character separator:
`"".split(sep)` is `[""]`, separators at the ends produce empty fields. -/
def splitCharAux (sep : Char) : List Char → List Char → List String
  | [], acc => [String.mk acc.reverse]
  | c :: rest, acc =>
    if c = sep then String.mk acc.reverse :: splitCharAux sep rest []
    else splitCharAux sep rest (c :: acc)

/-- Split a string on a single separator character, JavaScript style. -/
def splitChar (sep : Char) (s : String) : List String :=
  splitCharAux sep s.toList []

/-- Whitespace characters recognised when trimming. -/
def isWsChar (c : Char) : Bool :=
  c = ' ' || c = '\t' || c = '\n' || c = '\r'

/-- JavaScript `String.prototype.trim` (over the whitespace set above). -/
def trimChars (s : String) : String :=
  String.mk (((s.toList.dropWhile isWsChar).reverse.dropWhile isWsChar).reverse)

/-- Join a list of strings with a separator, JavaScript `Array.join`. -/
def joinStrs (sep : String) : List String → String
  | [] => ""
  | [x] => x
  | x :: rest => x ++ sep ++ joinStrs sep rest

/-- `Array.join` over possibly-`undefined` entries: JavaScript renders an
`undefined` element as the empty string. -/
def joinOptStrs (sep : String) (l : List (Option String)) : String :=
  joinStrs sep (l.map (fun o => o.getD ""))

/-- Decimal value of a list of digit characters. -/
def parseDigits (cs : List Char) : Nat :=
  cs.foldl (fun acc c => acc * 10 + (c.toNat - 48)) 0

/-- JavaScript `parseInt(s, 10)` restricted to integer inputs: skip
surrounding whitespace, read an optional sign and then the maximal leading
run of digits; `none` models `NaN` (no digit found). -/
def parseIntStr (s : String) : Option Int :=
  match (trimChars s).toList with
  | '-' :: rest =>
    let ds := rest.takeWhile Char.isDigit
    if ds.isEmpty then none else some (-(parseDigits ds : Int))
  | '+' :: rest =>
    let ds := rest.takeWhile Char.isDigit
    if ds.isEmpty then none else some (parseDigits ds : Int)
  | cs =>
    let ds := cs.takeWhile Char.isDigit
    if ds.isEmpty then none else some (parseDigits ds : Int)

/-- JavaScript `parseInt` applied to a possibly-`undefined` value:
`parseInt(undefined)` is `NaN`. -/
def parseIntOpt : Option String → Option Int
  | none => none
  | some s => parseIntStr s

/-- JavaScript `Number(s)` coercion restricted to integer-shaped strings:
the empty (or all-whitespace) string coerces to `0`, an optionally signed
all-digit string to its value, anything else to `NaN` (`none`). -/
def jsNumberStr (s : String) : Option Int :=
  match (trimChars s).toList with
  | [] => some 0
  | '-' :: rest =>
    if !rest.isEmpty && rest.all Char.isDigit then some (-(parseDigits rest : Int)) else none
  | '+' :: rest =>
    if !rest.isEmpty && rest.all Char.isDigit then some (parseDigits rest : Int) else none
  | cs =>
    if cs.all Char.isDigit then some (parseDigits cs : Int) else none

/-- JavaScript truthiness of a string: falsy iff empty. -/
def truthyStr (s : String) : Bool := s ≠ ""

/-- JavaScript truthiness of an integer: falsy iff `0`. -/
def truthyInt (n : Int) : Bool := n ≠ 0

/-- JavaScript truthiness of an optional string field: `undefined`/`null`
and the empty string are falsy. -/
def truthyOpt : Option String → Bool
  | some s => s ≠ ""
  | none => false

/-! ## Domain derivation (`getDomainFromUrl`, both handler variants)

Models `new URL(url).hostname` for the common `scheme://host[:port]/...`
shape: the hostname is what follows the first `://` up to a `/`, `?`, `#`
or `:`; a string without `://`, an empty scheme or an empty host makes the
`URL` constructor throw, which the source maps to `"unknown"`.  The
`replace(/^www\./, '')` strips one leading `www.`. -/

/-- Find the first `://` in a character list, returning the scheme part and
the remainder. -/
def splitSchemeAux : List Char → List Char → Option (List Char × List Char)
  | ':' :: '/' :: '/' :: rest, acc => some (acc.reverse, rest)
  | c :: rest, acc => splitSchemeAux rest (c :: acc)
  | [], _ => none

/-- `getDomainFromUrl` from `src/lambda/src/index.ts`: hostname of the URL
with a leading `www.` removed, `"unknown"` on parse failure. -/
def getDomainFromUrl (url : String) : String :=
  match splitSchemeAux url.toList [] with
  | none => "unknown"
  | some (scheme, rest) =>
    if scheme.isEmpty then "unknown"
    else
      let host := rest.takeWhile (fun c => c ≠ '/' && c ≠ '?' && c ≠ '#' && c ≠ ':')
      if host.isEmpty then "unknown"
      else if host.take 4 = "www.".toList then String.mk (host.drop 4)
      else String.mk host

/-! ## Identifier format checks -/

/-- `validateId` from the TypeScript handler of `src/lambda/src/index.ts`:
the regular expression `^publisher-\d+$`. -/
def validateId (id : String) : Bool :=
  let cs := id.toList
  cs.take 10 = "publisher-".toList && !(cs.drop 10).isEmpty && (cs.drop 10).all Char.isDigit

/-- `isValidId` from `src/lambda/src/utils.ts` (same logic in the unnamed
JavaScript `utils` file): the id split on `-` must give exactly two
non-empty parts. -/
def isValidId (id : String) : Bool :=
  if id = "" then false
  else
    let parts := splitChar '-' id
    parts.length == 2 && ((parts.getD 0 "").length > 0) && ((parts.getD 1 "").length > 0)

/-- `getNamespaceFromId` from `src/lambda/src/utils.ts`: the first
dash-separated component. -/
def getNamespaceFromId (id : String) : String :=
  (splitChar '-' id).getD 0 ""

/-! ## Data model of the ingestion handler -/

/-- The parsed request body (`LogRecord` in `src/lambda/src/index.ts`). -/
structure LogRecord where
  id : String
  timestamp : Int
  url : String
  consentString : String
  previousId : Option String
  publisherSegments : Option (List String)
deriving DecidableEq, Repr

/-- The raw request body as the handler sees it: absent (or otherwise falsy),
present but not valid JSON (so `JSON.parse` throws), or parsed. -/
inductive ReqBody where
  | missing
  | invalid
  | valid (data : LogRecord)
deriving DecidableEq, Repr

/-- The handler's HTTP-style response (CORS headers omitted; no claim is
about them). -/
structure ApiResponse where
  statusCode : Nat
  success : Bool
  id : Option String
  segments : Option (List (Option String))
  error : Option String
deriving DecidableEq, Repr

/-- A storage operation performed by a handler run.  Writes are tagged by
call site (event record vs succession mapping) and record whether the
`putObject` call succeeded. -/
inductive StorageOp where
  | read (key : String)
  | writeEvent (key : String) (content : String) (ok : Bool)
  | writeMapping (key : String) (content : String) (ok : Bool)
deriving DecidableEq, Repr

/-- `true` iff the trace contains a successful succession-mapping write. -/
def mappingWritten (trace : List StorageOp) : Bool :=
  trace.any (fun op =>
    match op with
    | StorageOp.writeMapping _ _ ok => ok
    | _ => false)

/-- `true` iff the trace contains a successful event-record write. -/
def eventWritten (trace : List StorageOp) : Bool :=
  trace.any (fun op =>
    match op with
    | StorageOp.writeEvent _ _ ok => ok
    | _ => false)

/-- `true` iff the trace contains a write attempt of any kind. -/
def anyWriteAttempt (trace : List StorageOp) : Bool :=
  trace.any (fun op =>
    match op with
    | StorageOp.read _ => false
    | _ => true)

/-! ## Segment source reading

The TypeScript variant (`getValidSegments`, lines 39-64 of
`src/lambda/src/index.ts`) fetches `<root>/segments.csv`, parses it with
`csv-parse` (`columns: true, skip_empty_lines: true`), keeps the records
whose `expire_timestamp` coerces to a number greater than `Date.now()` and
re-throws every read or parse error.  The JavaScript variant
(`getValidSegments`, lines 232-280) fetches a per-id key, splits the file
by hand, skips rows whose `parseInt`-ed expiry is `NaN` or not greater than
now, and swallows every error into an empty list. -/

/-- One record produced by `csv-parse` with `columns: true`: the value of a
named column, `none` when the header lacks the column (the field is then
`undefined`). -/
structure SegRecord where
  segments : Option String
  expire_timestamp : Option String
deriving DecidableEq, Repr

/-- Value of column `name` in a row, via the header. -/
def colLookup (cols vals : List String) (name : String) : Option String :=
  match cols.findIdx? (· == name) with
  | some i => vals.get? i
  | none => none

/-- `csv-parse` with `columns: true, skip_empty_lines: true`, restricted to
quote-free input: empty lines are dropped, the first remaining line is the
header, and a row whose field count differs from the header's makes the
parser throw (`none`). -/
def parseCsvRecords (content : String) : Option (List SegRecord) :=
  let lines := (splitChar '\n' content).filter (· ≠ "")
  match lines with
  | [] => some []
  | header :: rows =>
    let cols := splitChar ',' header
    if rows.all (fun r => (splitChar ',' r).length = cols.length) then
      some (rows.map (fun r =>
        let vals := splitChar ',' r
        { segments := colLookup cols vals "segments",
          expire_timestamp := colLookup cols vals "expire_timestamp" }))
    else none

/-- The filter of the TypeScript `getValidSegments`:
`record.expire_timestamp > now`, a JavaScript relational comparison that
coerces the string field with `Number`; `NaN` (and `undefined`) compare
false. -/
def tsExpiryKeeps (v : Option String) (now : Int) : Bool :=
  match v with
  | none => false
  | some s =>
    match jsNumberStr s with
    | some e => now < e
    | none => false

/-- Outcome of the `s3.getObject` call for the segment source. -/
inductive SegGetResult where
  | s3err
  | noBody
  | content (s : String)
deriving DecidableEq, Repr

/-- TypeScript `getValidSegments`: `none` models the re-thrown exception
(read error or parse error), otherwise the list of `segments` fields of the
unexpired records. -/
def getValidSegmentsTs (res : SegGetResult) (now : Int) : Option (List (Option String)) :=
  match res with
  | SegGetResult.s3err => none
  | SegGetResult.noBody => some []
  | SegGetResult.content s =>
    match parseCsvRecords s with
    | none => none
    | some records =>
      some ((records.filter (fun r => tsExpiryKeeps r.expire_timestamp now)).map
        (fun r => r.segments))

/-- The row loop of the JavaScript `getValidSegments` (lines 260-269):
blank rows are skipped, a row is kept iff `parseInt` of its expiry column
is a number strictly greater than `now`, and the pushed value is the
segment column (possibly `undefined` when the row is short). -/
def segRowsJs (segIdx expIdx : Nat) (now : Int) : List String → List (Option String)
  | [] => []
  | line :: rest =>
    if trimChars line = "" then segRowsJs segIdx expIdx now rest
    else
      let vals := splitChar ',' line
      match parseIntOpt vals[expIdx]? with
      | some e =>
        if now < e then vals[segIdx]? :: segRowsJs segIdx expIdx now rest
        else segRowsJs segIdx expIdx now rest
      | none => segRowsJs segIdx expIdx now rest

/-- JavaScript `getValidSegments`: every failure mode (missing key, read
error, absent body) yields `[]`; so does a header missing either required
column. -/
def getValidSegmentsJs (res : Option String) (now : Int) : List (Option String) :=
  match res with
  | none => []
  | some content =>
    match splitChar '\n' content with
    | [] => []
    | headerLine :: rest =>
      let headers := splitChar ',' headerLine
      match headers.findIdx? (· == "segments"), headers.findIdx? (· == "expire_timestamp") with
      | some segIdx, some expIdx => segRowsJs segIdx expIdx now rest
      | _, _ => []

/-! ## The two ingestion handlers -/

/-- Storage-backend behaviour for one run of the TypeScript handler. -/
structure StorageTs where
  segGet : SegGetResult
  eventPutOk : Bool
  mappingPutOk : Bool
deriving DecidableEq, Repr

/-- Storage-backend behaviour for one run of the JavaScript handler: its
`getValidSegments` collapses every read failure to `none`. -/
structure StorageJs where
  segGet : Option String
  eventPutOk : Bool
  mappingPutOk : Bool
deriving DecidableEq, Repr

/-- 400 response of the TypeScript handler for missing required fields. -/
def respMissingFields : ApiResponse :=
  { statusCode := 400, success := false, id := none, segments := none,
    error := some "Missing required fields. All requests must include id, timestamp, url, and consentString." }

/-- 400 response for a malformed id. -/
def respBadId : ApiResponse :=
  { statusCode := 400, success := false, id := none, segments := none,
    error := some "Invalid ID format" }

/-- Generic 500 response of the catch-all block. -/
def respServerError : ApiResponse :=
  { statusCode := 500, success := false, id := none, segments := none,
    error := some "Internal server error" }

/-- Happy-path 200 response. -/
def respOk (id : String) (segments : List (Option String)) : ApiResponse :=
  { statusCode := 200, success := true, id := some id, segments := some segments,
    error := none }

/-- The shared required-field validation: JavaScript truthiness of
`id`, `timestamp`, `url`, `consentString`. -/
def requiredFieldsOk (data : LogRecord) : Bool :=
  truthyStr data.id && truthyInt data.timestamp && truthyStr data.url &&
    truthyStr data.consentString

/-- Event-record key of the TypeScript handler:
`<ID_FOLDER>/publisher/<domain>/<id>/<timestamp>.csv`. -/
def eventKeyTs (idFolder : String) (data : LogRecord) : String :=
  idFolder ++ "/publisher/" ++ getDomainFromUrl data.url ++ "/" ++ data.id ++ "/" ++
    toString data.timestamp ++ ".csv"

/-- Mapping key of the TypeScript handler:
`<ID_FOLDER>/publisher/mappings/<previousId>.csv`. -/
def mappingKeyTs (idFolder : String) (data : LogRecord) : String :=
  idFolder ++ "/publisher/mappings/" ++ data.previousId.getD "" ++ ".csv"

/-- CSV body written by the TypeScript handler for the event record. -/
def eventContentTs (data : LogRecord) (segs : List (Option String)) : String :=
  "id,timestamp,url,consentString,previousId,segments,publisherSegments\n" ++
    "\"" ++ data.id ++ "\",\"" ++ toString data.timestamp ++ "\",\"" ++ data.url ++
    "\",\"" ++ data.consentString ++ "\",\"" ++ data.previousId.getD "" ++ "\",\"" ++
    joinOptStrs "," segs ++ "\",\"" ++
    (match data.publisherSegments with
     | some l => joinStrs "|" l
     | none => "") ++ "\""

/-- CSV body written for the succession mapping (same in both variants). -/
def mappingContent (data : LogRecord) : String :=
  "oldId,newId,timestamp\n\"" ++ data.previousId.getD "" ++ "\",\"" ++ data.id ++ "\"," ++
    toString data.timestamp

/-- The TypeScript `handler` of `src/lambda/src/index.ts` (lines 70-169),
as a function of the storage environment, the current time, the configured
root folder and the request body.  It returns the response together with
the trace of storage operations. -/
def handlerTs (env : StorageTs) (now : Int) (idFolder : String) (body : ReqBody) :
    ApiResponse × List StorageOp :=
  match body with
  | ReqBody.missing => (respServerError, [])
  | ReqBody.invalid => (respServerError, [])
  | ReqBody.valid data =>
    if !requiredFieldsOk data then (respMissingFields, [])
    else if !validateId data.id then (respBadId, [])
    else
      let segmentsFile := idFolder ++ "/segments.csv"
      match getValidSegmentsTs env.segGet now with
      | none => (respServerError, [StorageOp.read segmentsFile])
      | some validSegments =>
        let ek := eventKeyTs idFolder data
        let ec := eventContentTs data validSegments
        if !env.eventPutOk then
          (respServerError, [StorageOp.read segmentsFile, StorageOp.writeEvent ek ec false])
        else
          let pre := [StorageOp.read segmentsFile, StorageOp.writeEvent ek ec true]
          if truthyOpt data.previousId then
            let mk := mappingKeyTs idFolder data
            let mc := mappingContent data
            if !env.mappingPutOk then
              (respServerError, pre ++ [StorageOp.writeMapping mk mc false])
            else
              (respOk data.id validSegments, pre ++ [StorageOp.writeMapping mk mc true])
          else (respOk data.id validSegments, pre)

/-- Segment-source key of the JavaScript handler:
`<ID_FOLDER>/<namespace>/<domain>/<id>/segments.csv`. -/
def segmentsKeyJs (idFolder : String) (data : LogRecord) : String :=
  idFolder ++ "/" ++ getNamespaceFromId data.id ++ "/" ++ getDomainFromUrl data.url ++ "/" ++
    data.id ++ "/segments.csv"

/-- Event-record key of the JavaScript handler:
`<ID_FOLDER>/<namespace>/<domain>/<id>/<timestamp>.csv`. -/
def eventKeyJs (idFolder : String) (data : LogRecord) : String :=
  idFolder ++ "/" ++ getNamespaceFromId data.id ++ "/" ++ getDomainFromUrl data.url ++ "/" ++
    data.id ++ "/" ++ toString data.timestamp ++ ".csv"

/-- Mapping key of the JavaScript handler:
`<ID_FOLDER>/<namespace>/mappings/<previousId>.csv`. -/
def mappingKeyJs (idFolder : String) (data : LogRecord) : String :=
  idFolder ++ "/" ++ getNamespaceFromId data.id ++ "/mappings/" ++ data.previousId.getD "" ++
    ".csv"

/-- CSV body written by the JavaScript handler: every field is quoted and
the segment lists are pipe-joined. -/
def eventContentJs (data : LogRecord) (segs : List (Option String)) : String :=
  "id,timestamp,url,consentString,previousId,segments,publisherSegments\n" ++
    joinStrs "," ([data.id, toString data.timestamp, data.url, data.consentString,
      data.previousId.getD "", joinOptStrs "|" segs,
      joinStrs "|" (data.publisherSegments.getD [])].map (fun f => "\"" ++ f ++ "\""))

/-- The JavaScript `handler` of `src/lambda/src/index.ts` (lines 317-396). -/
def handlerJs (env : StorageJs) (now : Int) (idFolder : String) (body : ReqBody) :
    ApiResponse × List StorageOp :=
  match body with
  | ReqBody.missing => (respServerError, [])
  | ReqBody.invalid => (respServerError, [])
  | ReqBody.valid data =>
    if !requiredFieldsOk data then (respMissingFields, [])
    else if !isValidId data.id then (respBadId, [])
    else
      let segmentsFile := segmentsKeyJs idFolder data
      let validSegments := getValidSegmentsJs env.segGet now
      let ek := eventKeyJs idFolder data
      let ec := eventContentJs data validSegments
      if !env.eventPutOk then
        (respServerError, [StorageOp.read segmentsFile, StorageOp.writeEvent ek ec false])
      else
        let pre := [StorageOp.read segmentsFile, StorageOp.writeEvent ek ec true]
        if truthyOpt data.previousId then
          let mk := mappingKeyJs idFolder data
          let mc := mappingContent data
          if !env.mappingPutOk then
            (respServerError, pre ++ [StorageOp.writeMapping mk mc false])
          else
            (respOk data.id validSegments, pre ++ [StorageOp.writeMapping mk mc true])
        else (respOk data.id validSegments, pre)

/-! ## The client `setID` lifecycle (`NewsPassIDImpl.setID`)

Both observed variants build the payload the same way:
`useId = id || storedId || this.generateId()`, the id is stored when
`useId !== storedId`, and
`previousId = (id && storedId && id !== storedId) ? storedId : undefined`.
The consent string is taken after `|| ''` defaulting, so it enters the
model as a plain string. -/

/-- The identity-event payload the client sends to the backend. -/
structure IdPayload where
  id : String
  timestamp : Int
  url : String
  consentString : String
  previousId : Option String
  publisherSegments : Option (List String)
deriving DecidableEq, Repr

/-- Observable outcome of one `setID` call: the returned id, the payload
sent, the stored value afterwards and whether the store was written. -/
structure SetIDResult where
  returnedId : String
  payload : IdPayload
  storedAfter : Option String
  wroteStore : Bool
deriving DecidableEq, Repr

/-- JavaScript `a || b` over an optional string: the empty string and
`null` fall through to `b`. -/
def jsOrStr (a : Option String) (b : String) : String :=
  match a with
  | some s => if s = "" then b else s
  | none => b

/-- `NewsPassIDImpl.setID` as a function of the stored id (from
`localStorage`, `none` when absent), the id the generator would produce,
the current time, the page url, the resolved consent string and the two
arguments. -/
def setIDModel (storedId : Option String) (gen : String) (now : Int)
    (url consent : String) (idArg : Option String)
    (publisherSegments : Option (List String)) : SetIDResult :=
  let useId := jsOrStr idArg (jsOrStr storedId gen)
  let changed : Bool :=
    match storedId with
    | some s => useId ≠ s
    | none => true
  let prev : Option String :=
    match idArg, storedId with
    | some i, some s => if i ≠ "" && s ≠ "" && i ≠ s then some s else none
    | _, _ => none
  { returnedId := useId,
    payload := ⟨useId, now, url, consent, prev, publisherSegments⟩,
    storedAfter := if changed then some useId else storedId,
    wroteStore := changed }

/-! ## The async-loader queue shim (`src/unnamed/part_001`)

The loader installs stub methods that push `[method, args]` onto
`window.newspassid_q`, sets `window.newspass_initialized = false` (line
117), and in `script.onload` drains the queue against the real client —
dispatching only method names the real client has — and afterwards checks
`if (!window.newspass_initialized)` to schedule one delayed default
`setID()` call, which is the only place that sets the flag to `true`.
Nothing executed while draining the queue modifies the flag, so the flag
read in the check is the value set at line 117. -/

/-- A call buffered by the stub: method name and the single optional
argument the stubs record. -/
structure QueuedCall where
  method : String
  arg : Option String
deriving DecidableEq, Repr

/-- The method names the real client exposes. -/
def realMethods : List String := ["setID", "getID", "getSegments", "clearID"]

/-- Result of `script.onload`: the queued calls dispatched against the real
client, in order, and whether the delayed default `setID()` was issued. -/
structure OnloadResult where
  dispatched : List QueuedCall
  defaultSetIDCalled : Bool
deriving DecidableEq, Repr

/-- The `script.onload` body as a function of the buffered queue and of the
`newspass_initialized` flag at the time of the `if` check. -/
def scriptOnload (queue : List QueuedCall) (initFlag : Bool) : OnloadResult :=
  { dispatched := queue.filter (fun c => realMethods.contains c.method),
    defaultSetIDCalled := !initFlag }

/-- One page session: the loader sets the flag to `false` at install time
(line 117) and nothing before or during the drain sets it, so `onload`
runs with the flag still `false`. -/
def pageSession (queue : List QueuedCall) : OnloadResult :=
  scriptOnload queue false

/-- Number of identity resolutions (calls of `setID` on the real client)
a session performs: the queued explicit ones plus the default one when it
was issued. -/
def setIDResolutions (r : OnloadResult) : Nat :=
  (r.dispatched.filter (fun c => c.method == "setID")).length +
    (if r.defaultSetIDCalled then 1 else 0)

/-- All-success storage environment for the TypeScript handler, with an
absent segment source body. -/
def envTsOk : StorageTs :=
  ⟨SegGetResult.noBody, true, true⟩

/-- All-success storage environment for the JavaScript handler, with a
missing segment source. -/
def envJsOk : StorageJs :=
  ⟨none, true, true⟩

/-- A representative valid request carrying a distinct previous id. -/
def sampleReq : LogRecord :=
  ⟨"publisher-123", 1234567890, "https://example.com", "consent123",
    some "publisher-122", some ["seg1", "seg2"]⟩

/-- A representative valid request with no previous id. -/
def sampleReqNoPrev : LogRecord :=
  ⟨"publisher-123", 1234567890, "https://www.example.com", "consent123", none, none⟩

/-- A valid request whose `previousId` equals its `id`. -/
def reqPrevEqId : LogRecord :=
  ⟨"publisher-2", 100, "https://example.com/", "c", some "publisher-2", none⟩

/-- TypeScript storage environment whose mapping write fails. -/
def envTsMapFail : StorageTs := ⟨SegGetResult.noBody, true, false⟩

/-- JavaScript storage environment whose mapping write fails. -/
def envJsMapFail : StorageJs := ⟨none, true, false⟩

/-- TypeScript storage environment whose segment-source read fails. -/
def envTsSegErr : StorageTs := ⟨SegGetResult.s3err, true, true⟩

/-- The claim's keep-condition for a parsed segment record, following the
specification's wording: a record is kept iff its expiry field is present
and numeric and its value is strictly greater than `now`; rows with a
missing or non-numeric expiry are skipped. -/
def claimKeep (now : Int) (r : SegRecord) : Option (Option String) :=
  match r.expire_timestamp with
  | some s =>
    match jsNumberStr s with
    | some e => if now < e then some r.segments else none
    | none => none
  | none => none

/-- A four-row segment source: one unexpired row, one expired row, one row
expiring exactly now, one row with a non-numeric expiry. -/
def segFixture : String :=
  "segments,expire_timestamp\nsegA,2000\nsegB,500\nsegC,1000\nsegD,abc"

/-- A queue holding one explicit `setID` call buffered before the real
client loaded. -/
def queuedExplicit : List QueuedCall := [⟨"setID", some "publisher-1"⟩]

/-! ## Helper lemmas -/

/-- A string is non-empty iff its length is positive. -/
theorem string_ne_empty_iff (s : String) : s ≠ "" ↔ 0 < s.length := by
  cases s with
  | mk data =>
    cases data with
    | nil => simp [String.length]
    | cons c cs =>
      simp only [String.length, List.length_cons]
      constructor
      · intro _; omega
      · intro _ h
        have hd : (String.mk (c :: cs)).data = ("" : String).data := by rw [h]
        simp at hd

/-- `filter` followed by `map` is a `filterMap`. -/
theorem filter_map_eq_filterMap {α β : Type} (p : α → Bool) (f : α → β) (l : List α) :
    (l.filter p).map f = l.filterMap (fun x => if p x then some (f x) else none) := by
  induction l with
  | nil => rfl
  | cons x xs ih =>
    by_cases h : p x <;> simp [List.filter_cons, h, ih]

/-! ## Claims -/

/-- C10: The ingestion handlers test required fields by truthiness: a request
whose `timestamp` is the integer `0`, or whose `id`, `url` or `consentString`
is the empty string, is answered with the 400 missing-required-fields
response, and the storage trace is empty — no storage read or write occurs. -/
theorem C10_holds : ∀ (envT : StorageTs) (envJ : StorageJs) (now : Int) (f : String)
    (i u c : String) (ts : Int) (p : Option String) (ps : Option (List String)),
    handlerTs envT now f (ReqBody.valid ⟨i, 0, u, c, p, ps⟩) = (respMissingFields, []) ∧
    handlerTs envT now f (ReqBody.valid ⟨"", ts, u, c, p, ps⟩) = (respMissingFields, []) ∧
    handlerTs envT now f (ReqBody.valid ⟨i, ts, "", c, p, ps⟩) = (respMissingFields, []) ∧
    handlerTs envT now f (ReqBody.valid ⟨i, ts, u, "", p, ps⟩) = (respMissingFields, []) ∧
    handlerJs envJ now f (ReqBody.valid ⟨i, 0, u, c, p, ps⟩) = (respMissingFields, []) ∧
    handlerJs envJ now f (ReqBody.valid ⟨"", ts, u, c, p, ps⟩) = (respMissingFields, []) ∧
    handlerJs envJ now f (ReqBody.valid ⟨i, ts, "", c, p, ps⟩) = (respMissingFields, []) ∧
    handlerJs envJ now f (ReqBody.valid ⟨i, ts, u, "", p, ps⟩) = (respMissingFields, []) ∧
    respMissingFields.statusCode = 400 := by
  intro envT envJ now f i u c ts p ps
  refine ⟨?_, ?_, ?_, ?_, ?_, ?_, ?_, ?_, rfl⟩ <;>
    simp [handlerTs, handlerJs, requiredFieldsOk, truthyStr, truthyInt]

/-- C4 counterexample: an unparseable (or absent) request body is answered
with status 500, not with the 400-class rejection the claim states. -/
theorem C4_counterexample :
    (handlerTs envTsOk 0 "newspassid" ReqBody.invalid).1.statusCode = 500 ∧
    ¬(handlerTs envTsOk 0 "newspassid" ReqBody.invalid).1.statusCode = 400 := by decide

/-- C4 (amended): a request whose body is absent or unparseable falls into
the generic catch block of either handler: the response is the 500
internal-server-error response — a different class from the 400
missing-field rejection — and no storage operation is performed. -/
theorem C4_holds : ∀ (envT : StorageTs) (envJ : StorageJs) (now : Int) (f : String),
    handlerTs envT now f ReqBody.missing = (respServerError, []) ∧
    handlerTs envT now f ReqBody.invalid = (respServerError, []) ∧
    handlerJs envJ now f ReqBody.missing = (respServerError, []) ∧
    handlerJs envJ now f ReqBody.invalid = (respServerError, []) ∧
    respServerError.statusCode = 500 ∧ respMissingFields.statusCode = 400 := by
  intro envT envJ now f
  exact ⟨rfl, rfl, rfl, rfl, rfl, rfl⟩

/-- C8 counterexample: `"a-b-c"` consists of three (hence at least two)
non-empty dash-separated components, yet the id-format check rejects it. -/
theorem C8_counterexample :
    (splitChar '-' "a-b-c").length ≥ 2 ∧
    (∀ p ∈ splitChar '-' "a-b-c", p ≠ "") ∧
    isValidId "a-b-c" = false := by decide

/-- C8 (amended): the id-format check of `utils` accepts an identifier iff
splitting it on `-` yields exactly two components, both non-empty;
identifiers with more than one dash are rejected even when every component
is non-empty. -/
theorem C8_holds : ∀ id : String,
    isValidId id = true ↔
      ((splitChar '-' id).length = 2 ∧ ∀ p ∈ splitChar '-' id, p ≠ "") := by
  intro id
  by_cases h0 : id = ""
  · subst h0; decide
  · rw [isValidId]
    simp only [if_neg h0]
    constructor
    · intro h
      have h2 : (splitChar '-' id).length = 2 := by
        rcases Bool.and_eq_true .. |>.mp h with ⟨h', _⟩
        rcases Bool.and_eq_true .. |>.mp h' with ⟨hlen, _⟩
        simpa using hlen
      obtain ⟨a, b, hab⟩ : ∃ a b, splitChar '-' id = [a, b] :=
        List.length_eq_two.mp h2
      refine ⟨h2, ?_⟩
      rcases Bool.and_eq_true .. |>.mp h with ⟨h', hb⟩
      rcases Bool.and_eq_true .. |>.mp h' with ⟨_, ha⟩
      rw [hab] at ha hb ⊢
      simp only [List.getD, List.getElem?_cons_zero, Option.getD_some] at ha
      simp only [List.getD, List.getElem?_cons_succ, List.getElem?_cons_zero,
        Option.getD_some] at hb
      intro p hp
      rcases List.mem_pair.mp hp with rfl | rfl
      · exact (string_ne_empty_iff p).mpr (by simpa using ha)
      · exact (string_ne_empty_iff p).mpr (by simpa using hb)
    · rintro ⟨h2, hne⟩
      obtain ⟨a, b, hab⟩ : ∃ a b, splitChar '-' id = [a, b] :=
        List.length_eq_two.mp h2
      rw [hab]
      have ha := (string_ne_empty_iff a).mp (hne a (hab ▸ List.mem_cons_self a [b]))
      have hb := (string_ne_empty_iff b).mp
        (hne b (hab ▸ List.mem_cons_of_mem a (List.mem_cons_self b [])))
      simp [List.getD, ha, hb]

/-- C8 witness: the amended characterization applied to a well-formed id. -/
theorem C8_witness : isValidId "publisher-123" = true :=
  (C8_holds "publisher-123").mpr (by decide)

/-- C9: evaluating the loader at the failing input.  Even when an explicit
`setID` call was queued before the client loaded, `newspass_initialized` is
still `false` at the post-drain check (only the delayed default call ever
sets it), so the shim issues the default `setID()` anyway and the session
performs two identity resolutions — contradicting the claim (and the
source's own comment) that the default is issued only when no explicit
identity-setting call was queued. -/
theorem C9_holds :
    (pageSession queuedExplicit).defaultSetIDCalled = true ∧
    setIDResolutions (pageSession queuedExplicit) = 2 ∧
    (pageSession []).defaultSetIDCalled = true ∧
    setIDResolutions (pageSession []) = 1 := by decide

/-- C1 counterexample: on a request with `previousId = id = "publisher-2"`
both handlers still write a succession-mapping record — the source guards
the mapping write only by `if (body.previousId)` with no comparison against
`id`, so the claim's "no mapping when previousId equals id" is false. -/
theorem C1_counterexample :
    reqPrevEqId.previousId = some reqPrevEqId.id ∧
    mappingWritten (handlerTs envTsOk 0 "newspassid" (ReqBody.valid reqPrevEqId)).2 = true ∧
    StorageOp.writeMapping "newspassid/publisher/mappings/publisher-2.csv"
        "oldId,newId,timestamp\n\"publisher-2\",\"publisher-2\",100" true
      ∈ (handlerTs envTsOk 0 "newspassid" (ReqBody.valid reqPrevEqId)).2 ∧
    mappingWritten (handlerJs envJsOk 0 "newspassid" (ReqBody.valid reqPrevEqId)).2 = true := by
  decide

/-- C1 (amended): a succession-mapping record is successfully written iff
the request passes validation, the segment phase does not fail (TypeScript
variant), both storage writes succeed, and `previousId` is present and
non-empty — whether or not it differs from `id`.  In particular no mapping
is ever written for an invalid body. -/
theorem C1_holds : ∀ (envT : StorageTs) (envJ : StorageJs) (now : Int) (f : String)
    (data : LogRecord),
    mappingWritten (handlerTs envT now f (ReqBody.valid data)).2
      = (requiredFieldsOk data && validateId data.id &&
          (getValidSegmentsTs envT.segGet now).isSome && envT.eventPutOk &&
          envT.mappingPutOk && truthyOpt data.previousId) ∧
    mappingWritten (handlerJs envJ now f (ReqBody.valid data)).2
      = (requiredFieldsOk data && isValidId data.id && envJ.eventPutOk &&
          envJ.mappingPutOk && truthyOpt data.previousId) ∧
    mappingWritten (handlerTs envT now f ReqBody.missing).2 = false ∧
    mappingWritten (handlerTs envT now f ReqBody.invalid).2 = false ∧
    mappingWritten (handlerJs envJ now f ReqBody.missing).2 = false ∧
    mappingWritten (handlerJs envJ now f ReqBody.invalid).2 = false := by
  intro envT envJ now f data
  refine ⟨?_, ?_, rfl, rfl, rfl, rfl⟩
  · cases h1 : requiredFieldsOk data with
    | false => simp [handlerTs, h1, mappingWritten]
    | true =>
      cases h2 : validateId data.id with
      | false => simp [handlerTs, h1, h2, mappingWritten]
      | true =>
        cases h3 : getValidSegmentsTs envT.segGet now with
        | none => simp [handlerTs, h1, h2, h3, mappingWritten]
        | some segs =>
          cases h4 : envT.eventPutOk with
          | false => simp [handlerTs, h1, h2, h3, h4, mappingWritten]
          | true =>
            cases h5 : truthyOpt data.previousId with
            | false => simp [handlerTs, h1, h2, h3, h4, h5, mappingWritten]
            | true =>
              cases h6 : envT.mappingPutOk with
              | false => simp [handlerTs, h1, h2, h3, h4, h5, h6, mappingWritten]
              | true => simp [handlerTs, h1, h2, h3, h4, h5, h6, mappingWritten]
  · cases h1 : requiredFieldsOk data with
    | false => simp [handlerJs, h1, mappingWritten]
    | true =>
      cases h2 : isValidId data.id with
      | false => simp [handlerJs, h1, h2, mappingWritten]
      | true =>
        cases h4 : envJ.eventPutOk with
        | false => simp [handlerJs, h1, h2, h4, mappingWritten]
        | true =>
          cases h5 : truthyOpt data.previousId with
          | false => simp [handlerJs, h1, h2, h4, h5, mappingWritten]
          | true =>
            cases h6 : envJ.mappingPutOk with
            | false => simp [handlerJs, h1, h2, h4, h5, h6, mappingWritten]
            | true => simp [handlerJs, h1, h2, h4, h5, h6, mappingWritten]

/-- C2: if either handler answers a parsed request with status 200 then a
successful event-record write is in the trace, at the deterministic key
derived from the root folder, the namespace (the literal `publisher` in the
TypeScript variant), the derived domain, the identifier and the timestamp. -/
theorem C2_holds : ∀ (envT : StorageTs) (envJ : StorageJs) (now : Int) (f : String)
    (data : LogRecord),
    ((handlerTs envT now f (ReqBody.valid data)).1.statusCode = 200 →
      ∃ c, StorageOp.writeEvent (eventKeyTs f data) c true
        ∈ (handlerTs envT now f (ReqBody.valid data)).2) ∧
    ((handlerJs envJ now f (ReqBody.valid data)).1.statusCode = 200 →
      ∃ c, StorageOp.writeEvent (eventKeyJs f data) c true
        ∈ (handlerJs envJ now f (ReqBody.valid data)).2) := by
  intro envT envJ now f data
  constructor
  · intro h200
    cases h1 : requiredFieldsOk data with
    | false => simp [handlerTs, h1, respMissingFields] at h200
    | true =>
      cases h2 : validateId data.id with
      | false => simp [handlerTs, h1, h2, respBadId] at h200
      | true =>
        cases h3 : getValidSegmentsTs envT.segGet now with
        | none => simp [handlerTs, h1, h2, h3, respServerError] at h200
        | some segs =>
          cases h4 : envT.eventPutOk with
          | false => simp [handlerTs, h1, h2, h3, h4, respServerError] at h200
          | true =>
            refine ⟨eventContentTs data segs, ?_⟩
            cases h5 : truthyOpt data.previousId with
            | false => simp [handlerTs, h1, h2, h3, h4, h5]
            | true =>
              cases h6 : envT.mappingPutOk with
              | false => simp [handlerTs, h1, h2, h3, h4, h5, h6]
              | true => simp [handlerTs, h1, h2, h3, h4, h5, h6]
  · intro h200
    cases h1 : requiredFieldsOk data with
    | false => simp [handlerJs, h1, respMissingFields] at h200
    | true =>
      cases h2 : isValidId data.id with
      | false => simp [handlerJs, h1, h2, respBadId] at h200
      | true =>
        cases h4 : envJ.eventPutOk with
        | false => simp [handlerJs, h1, h2, h4, respServerError] at h200
        | true =>
          refine ⟨eventContentJs data (getValidSegmentsJs envJ.segGet now), ?_⟩
          cases h5 : truthyOpt data.previousId with
          | false => simp [handlerJs, h1, h2, h4, h5]
          | true =>
            cases h6 : envJ.mappingPutOk with
            | false => simp [handlerJs, h1, h2, h4, h5, h6]
            | true => simp [handlerJs, h1, h2, h4, h5, h6]

/-- C2 witness: a concrete 200 run of the TypeScript handler whose trace
holds the event record at the deterministic path. -/
theorem C2_witness :
    (handlerTs envTsOk 0 "newspassid" (ReqBody.valid sampleReq)).1.statusCode = 200 ∧
    (∃ c, StorageOp.writeEvent (eventKeyTs "newspassid" sampleReq) c true
      ∈ (handlerTs envTsOk 0 "newspassid" (ReqBody.valid sampleReq)).2) :=
  ⟨by decide, (C2_holds envTsOk envJsOk 0 "newspassid" sampleReq).1 (by decide)⟩

/-- C3 counterexample: with the event record already persisted, a failing
succession-mapping write makes both handlers answer 500 — not the claimed
success — because the awaited `putObject` rejection falls into the generic
catch block. -/
theorem C3_counterexample :
    eventWritten (handlerTs envTsMapFail 0 "newspassid" (ReqBody.valid sampleReq)).2 = true ∧
    (handlerTs envTsMapFail 0 "newspassid" (ReqBody.valid sampleReq)).1.statusCode = 500 ∧
    eventWritten (handlerJs envJsMapFail 0 "newspassid" (ReqBody.valid sampleReq)).2 = true ∧
    (handlerJs envJsMapFail 0 "newspassid" (ReqBody.valid sampleReq)).1.statusCode = 500 := by
  decide

/-- C3 (amended): when a validated request has persisted its event record
and carries a truthy `previousId`, a failure of the succession-mapping
write fails the whole request: the handler answers the generic 500
response, even though the event record remains in the trace as a
successful write. -/
theorem C3_holds : ∀ (envT : StorageTs) (envJ : StorageJs) (now : Int) (f : String)
    (data : LogRecord),
    requiredFieldsOk data = true →
    truthyOpt data.previousId = true →
    ((validateId data.id = true → envT.eventPutOk = true → envT.mappingPutOk = false →
      (getValidSegmentsTs envT.segGet now).isSome = true →
      (handlerTs envT now f (ReqBody.valid data)).1 = respServerError ∧
      eventWritten (handlerTs envT now f (ReqBody.valid data)).2 = true ∧
      mappingWritten (handlerTs envT now f (ReqBody.valid data)).2 = false) ∧
    (isValidId data.id = true → envJ.eventPutOk = true → envJ.mappingPutOk = false →
      (handlerJs envJ now f (ReqBody.valid data)).1 = respServerError ∧
      eventWritten (handlerJs envJ now f (ReqBody.valid data)).2 = true ∧
      mappingWritten (handlerJs envJ now f (ReqBody.valid data)).2 = false)) := by
  intro envT envJ now f data h1 h5
  constructor
  · intro h2 h4 h6 hseg
    cases h3 : getValidSegmentsTs envT.segGet now with
    | none => rw [h3] at hseg; simp at hseg
    | some segs =>
      refine ⟨?_, ?_, ?_⟩ <;>
        simp [handlerTs, h1, h2, h3, h4, h5, h6, eventWritten, mappingWritten]
  · intro h2 h4 h6
    refine ⟨?_, ?_, ?_⟩ <;>
      simp [handlerJs, h1, h2, h4, h5, h6, eventWritten, mappingWritten]

/-- C3 witness: the amended statement at a concrete failing-mapping run. -/
theorem C3_witness :
    (handlerTs envTsMapFail 0 "newspassid" (ReqBody.valid sampleReq)).1 = respServerError ∧
    eventWritten (handlerTs envTsMapFail 0 "newspassid" (ReqBody.valid sampleReq)).2 = true ∧
    mappingWritten (handlerTs envTsMapFail 0 "newspassid" (ReqBody.valid sampleReq)).2 = false :=
  (C3_holds envTsMapFail envJsMapFail 0 "newspassid" sampleReq (by decide) (by decide)).1
    (by decide) (by decide) (by decide) (by decide)

/-- C5 counterexample: a segment-source read failure makes the TypeScript
handler answer 500 with nothing written — `getValidSegments` re-throws the
error (its own test expects exactly this) — contradicting the claim that a
read failure never produces a 500-equivalent response. -/
theorem C5_counterexample :
    (handlerTs envTsSegErr 0 "newspassid" (ReqBody.valid sampleReqNoPrev)).1.statusCode = 500 ∧
    anyWriteAttempt (handlerTs envTsSegErr 0 "newspassid" (ReqBody.valid sampleReqNoPrev)).2
      = false := by
  decide

/-- C5 (amended): the two variants diverge on a segment-source read
failure.  The TypeScript handler re-throws it: the request fails with the
generic 500 response and no write is attempted.  The JavaScript handler
swallows it: the resolved segment list is empty and, when the writes
succeed, the request still answers 200 with the event record persisted. -/
theorem C5_holds : ∀ (envJ : StorageJs) (now : Int) (f : String) (data : LogRecord)
    (ep mp : Bool),
    requiredFieldsOk data = true →
    ((validateId data.id = true →
      (handlerTs ⟨SegGetResult.s3err, ep, mp⟩ now f (ReqBody.valid data)).1 = respServerError ∧
      (handlerTs ⟨SegGetResult.s3err, ep, mp⟩ now f (ReqBody.valid data)).2
        = [StorageOp.read (f ++ "/segments.csv")]) ∧
    (isValidId data.id = true → envJ.segGet = none → envJ.eventPutOk = true →
      envJ.mappingPutOk = true →
      (handlerJs envJ now f (ReqBody.valid data)).1 = respOk data.id [] ∧
      eventWritten (handlerJs envJ now f (ReqBody.valid data)).2 = true)) := by
  intro envJ now f data ep mp h1
  constructor
  · intro h2
    constructor <;> simp [handlerTs, h1, h2, getValidSegmentsTs]
  · intro h2 hseg h4 h6
    have hsegs : getValidSegmentsJs envJ.segGet now = [] := by rw [hseg]; rfl
    cases h5 : truthyOpt data.previousId with
    | false =>
      constructor <;> simp [handlerJs, h1, h2, h4, h5, hsegs, eventWritten]
    | true =>
      constructor <;> simp [handlerJs, h1, h2, h4, h5, h6, hsegs, eventWritten]

/-- C5 witness: the amended statement at concrete runs of both variants. -/
theorem C5_witness :
    ((handlerTs envTsSegErr 0 "newspassid" (ReqBody.valid sampleReqNoPrev)).1 = respServerError ∧
      (handlerTs envTsSegErr 0 "newspassid" (ReqBody.valid sampleReqNoPrev)).2
        = [StorageOp.read "newspassid/segments.csv"]) ∧
    ((handlerJs envJsOk 0 "newspassid" (ReqBody.valid sampleReqNoPrev)).1
        = respOk sampleReqNoPrev.id [] ∧
      eventWritten (handlerJs envJsOk 0 "newspassid" (ReqBody.valid sampleReqNoPrev)).2 = true) :=
  ⟨(C5_holds envJsOk 0 "newspassid" sampleReqNoPrev true true (by decide)).1 (by decide),
    (C5_holds envJsOk 0 "newspassid" sampleReqNoPrev true true (by decide)).2
      (by decide) (by decide) (by decide) (by decide)⟩

/-- C6: segment filtering is exact with respect to the handler's clock.
First conjunct: the row loop of the JavaScript `getValidSegments` equals
the filter-map that keeps a non-blank row iff `parseInt` of its expiry
column is a number strictly greater than `now`, preserving row order.
Second conjunct: the TypeScript variant, on any source that parses, keeps
a record iff its expiry field is numeric and strictly greater than `now`
(`claimKeep`).  Third and fourth conjuncts: on a source with rows expiring
at `now + 1000`, `now - 500`, exactly `now`, and a non-numeric expiry, both
variants resolve exactly the first segment. -/
theorem C6_holds :
    (∀ (segIdx expIdx : Nat) (now : Int) (rows : List String),
      segRowsJs segIdx expIdx now rows =
        (rows.filter (fun l => trimChars l ≠ "")).filterMap (fun l =>
          match parseIntOpt (splitChar ',' l)[expIdx]? with
          | some e => if now < e then some (splitChar ',' l)[segIdx]? else none
          | none => none)) ∧
    (∀ (content : String) (records : List SegRecord) (now : Int),
      parseCsvRecords content = some records →
      getValidSegmentsTs (SegGetResult.content content) now
        = some (records.filterMap (claimKeep now))) ∧
    getValidSegmentsJs (some segFixture) 1000 = [some "segA"] ∧
    getValidSegmentsTs (SegGetResult.content segFixture) 1000 = some [some "segA"] := by
  refine ⟨?_, ?_, by decide, by decide⟩
  · intro segIdx expIdx now rows
    induction rows with
    | nil => rfl
    | cons line rest ih =>
      by_cases hb : trimChars line = ""
      · simp [segRowsJs, hb, List.filter_cons, ih]
      · cases hp : parseIntOpt (splitChar ',' line)[expIdx]? with
        | none => simp [segRowsJs, hb, hp, List.filter_cons, List.filterMap_cons, ih]
        | some e =>
          by_cases he : now < e
          · simp [segRowsJs, hb, hp, he, List.filter_cons, List.filterMap_cons, ih]
          · simp [segRowsJs, hb, hp, he, List.filter_cons, List.filterMap_cons, ih]
  · intro content records now hp
    simp only [getValidSegmentsTs, hp]
    rw [filter_map_eq_filterMap]
    refine congrArg some ?_
    refine List.filterMap_congr ?_
    intro r _
    cases hv : r.expire_timestamp with
    | none => simp [tsExpiryKeeps, claimKeep, hv]
    | some s =>
      cases hn : jsNumberStr s with
      | none => simp [tsExpiryKeeps, claimKeep, hv, hn]
      | some e => by_cases he : now < e <;> simp [tsExpiryKeeps, claimKeep, hv, hn, he]

/-- C6 witness: the TypeScript characterization applied to a concrete
two-row source. -/
theorem C6_witness :
    parseCsvRecords "segments,expire_timestamp\nsegA,2000\nsegB,500"
      = some [⟨some "segA", some "2000"⟩, ⟨some "segB", some "500"⟩] ∧
    getValidSegmentsTs (SegGetResult.content "segments,expire_timestamp\nsegA,2000\nsegB,500") 1000
      = some ([⟨some "segA", some "2000"⟩, ⟨some "segB", some "500"⟩].filterMap (claimKeep 1000)) :=
  ⟨by decide, C6_holds.2.1 "segments,expire_timestamp\nsegA,2000\nsegB,500"
    [⟨some "segA", some "2000"⟩, ⟨some "segB", some "500"⟩] 1000 (by decide)⟩

/-- C7: in the client `setID`, the payload's `previousId` is the previously
stored identifier exactly when an explicit non-empty id argument was
supplied, a non-empty stored identifier existed, and the two differ; when
storage was empty (the fresh-generation case) or when `setID` was called
without an id argument, `previousId` is absent. -/
theorem C7_holds : ∀ (stored : Option String) (gen : String) (now : Int)
    (url consent : String) (idArg : Option String) (ps : Option (List String)) (old : String),
    ((setIDModel stored gen now url consent idArg ps).payload.previousId = some old ↔
      (stored = some old ∧ old ≠ "" ∧ ∃ i, idArg = some i ∧ i ≠ "" ∧ i ≠ old)) ∧
    (setIDModel none gen now url consent idArg ps).payload.previousId = none ∧
    (setIDModel stored gen now url consent none ps).payload.previousId = none := by
  intro stored gen now url consent idArg ps old
  refine ⟨?_, ?_, ?_⟩
  · cases idArg with
    | none =>
      constructor
      · intro h; exact Option.noConfusion h
      · rintro ⟨-, -, j, hj, -, -⟩; exact Option.noConfusion hj
    | some i =>
      cases stored with
      | none =>
        constructor
        · intro h; exact Option.noConfusion h
        · rintro ⟨hso, -, -⟩; exact Option.noConfusion hso
      | some s =>
        have hprev : (setIDModel (some s) gen now url consent (some i) ps).payload.previousId
            = if i ≠ "" && s ≠ "" && i ≠ s then some s else none := rfl
        rw [hprev]
        by_cases hi : i = ""
        · rw [if_neg (by simp [hi])]
          constructor
          · intro h; exact Option.noConfusion h
          · rintro ⟨-, -, j, hj, hjne, -⟩
            injection hj with hj
            exact absurd (hi ▸ hj.symm) hjne
        · by_cases hs : s = ""
          · rw [if_neg (by simp [hs])]
            constructor
            · intro h; exact Option.noConfusion h
            · rintro ⟨hso, ho, -⟩
              injection hso with hso
              exact absurd (hs ▸ hso).symm ho
          · by_cases hne : i = s
            · rw [if_neg (by simp [hne])]
              constructor
              · intro h; exact Option.noConfusion h
              · rintro ⟨hso, -, j, hj, -, hjold⟩
                injection hso with hso
                injection hj with hj
                exact absurd (hj ▸ hne ▸ hso) hjold
            · rw [if_pos (by simp [hi, hs, hne])]
              constructor
              · intro h
                injection h with h
                subst h
                exact ⟨rfl, hs, i, rfl, hi, hne⟩
              · rintro ⟨hso, -, -⟩
                injection hso with hso
                rw [hso]
  · cases idArg <;> simp [setIDModel]
  · cases stored <;> simp [setIDModel]

/-- C7 witness: a publisher-initiated change (explicit id differing from
the stored one) carries the old id as `previousId`. -/
theorem C7_witness :
    (setIDModel (some "publisher-1") "gen-x" 5 "https://example.com/" "c"
      (some "publisher-2") none).payload.previousId = some "publisher-1" :=
  ((C7_holds (some "publisher-1") "gen-x" 5 "https://example.com/" "c"
      (some "publisher-2") none "publisher-1").1).mpr
    ⟨rfl, by decide, "publisher-2", rfl, by decide, by decide⟩
